import Mathlib

/-!
Shallow embedding of the mot_test ETL pipeline (src/etl.py, src/main.py).

The pipeline pulls paginated JSON datasets from a remote API (function
extractor), normalizes them with pandas operations inside load
(lower-casing text values, sentinel replacement, primary-key validation,
domain-column numeric coercion), and loads them into Postgres through a
drop/recreate + staging + upsert protocol (function load).  main
(src/main.py) calls create_database once and then iterates a fixed
catalog, isolating per-dataset failures with try/except.

Scalar values are modelled by PyVal; a pandas DataFrame by a list of
named columns; the database by an association list from table name to
rows.  Statements executed by load are recorded in a trace, tagged with
the connection they run on: the psycopg2 transactional connection, or
the separate SQLAlchemy engine connection used by DataFrame.to_sql
(which commits independently).
-/

/-- Scalar values as they appear in a pandas column: Python None, float
NaN, pandas NA, strings and integers.  Non-integer floats play no role
in any claim and are not modelled. -/
inductive PyVal where
  | vNone
  | vNaN
  | vNA
  | vStr (s : String)
  | vInt (n : Int)
  deriving DecidableEq, Repr

namespace PyVal

/-- The three missing-value sentinels: Python None, float NaN, pandas NA. -/
def isSentinel : PyVal → Bool
  | vNone => true
  | vNaN => true
  | vNA => true
  | _ => false

/-- Whether a value is a string. -/
def isStr : PyVal → Bool
  | vStr _ => true
  | _ => false

/-- Python str() applied to a cell value, as astype(str) does elementwise:
str(None) is "None", str(float nan) is "nan", str(pd.NA) is "<NA>". -/
def pyStr : PyVal → String
  | vNone => "None"
  | vNaN => "nan"
  | vNA => "<NA>"
  | vStr s => s
  | vInt n => toString n

end PyVal

/-- A record parsed from one JSON object: association list from key
(column name) to value, in key order. -/
abbrev Rec := List (String × PyVal)

/-- A pandas DataFrame, column-wise: each column is a name paired with
the list of its values, one per row, in row order. -/
structure DFrame where
  cols : List (String × List PyVal)
  deriving DecidableEq, Repr

/-- The column names of a DataFrame, in order. -/
def DFrame.colNames (df : DFrame) : List String := df.cols.map Prod.fst

/-- The values of the named column (first occurrence), if present. -/
def DFrame.col (df : DFrame) (c : String) : Option (List PyVal) :=
  (df.cols.find? (fun p => p.1 = c)).map Prod.snd

/-- pandas df.empty: true when the frame has no columns or no rows. -/
def DFrame.isEmpty (df : DFrame) : Bool :=
  df.cols.isEmpty || df.cols.all (fun p => p.2.isEmpty)

/-- A column is object-dtype when it holds a string or a surviving
Python None (pandas keeps such columns as object; purely numeric
columns with missing entries hold NaN instead and are float64). -/
def isObjectDtype (vs : List PyVal) : Bool :=
  vs.any fun v => match v with
    | .vStr _ => true
    | .vNone => true
    | _ => false

/-- The dict replace({pd.NA: None, float(nan): None}) applied to one
value (src/etl.py line 114). -/
def replaceSentinel : PyVal → PyVal
  | .vNA => .vNone
  | .vNaN => .vNone
  | v => v

/-- ASCII lower-casing of one character, as Python str.lower() acts on
the ASCII range; characters outside A-Z (digits, punctuation, Hebrew
letters) are untouched. -/
def lowerChar (c : Char) : Char :=
  if c.toNat ≥ 65 && c.toNat ≤ 90 then Char.ofNat (c.toNat + 32) else c

/-- Lower-casing of a string, character-wise. -/
def lowerStr (s : String) : String := ⟨s.data.map lowerChar⟩

/-- One iteration of the per-column loop at src/etl.py lines 111-114:
object-dtype columns are first passed through astype(str).str.lower()
(which stringifies missing values to "nan" / "none" / "<na>"), then the
sentinel replace runs on every column. -/
def processColumn (vs : List PyVal) : List PyVal :=
  let vs1 := if isObjectDtype vs then vs.map (fun v => .vStr (lowerStr v.pyStr)) else vs
  vs1.map replaceSentinel

/-- Integer parsing of a string cell, as pd.to_numeric(errors=coerce)
followed by astype(Int64) behaves on integer-literal strings;
non-numeric strings coerce to NaN and surface as a missing id.
Modelling note: strings denoting non-integer floats are out of scope
(no claim exercises them) and are treated as missing. -/
def parsePyInt (s : String) : Option Int := s.trim.toInt?

/-- Coercion of one _id cell: pd.to_numeric(df[_id], errors=coerce)
followed by astype(Int64) (src/etl.py line 117).  none models a cell
that is NA after coercion. -/
def coerceId : PyVal → Option Int
  | .vInt n => some n
  | .vStr s => parsePyInt s
  | _ => none

/-- First-duplicate detection, matching not Series.is_unique. -/
def listHasDup {α : Type} [DecidableEq α] : List α → Bool
  | [] => false
  | a :: as => as.contains a || listHasDup as

/-- The domain-specific numeric columns of src/etl.py line 125: prefix
kamut_, suffix _WLTP, or the exact names nikud_betihut / CO2_WLTP_NEDC. -/
def isDomainNumericCol (c : String) : Bool :=
  c.startsWith "kamut_" || c.endsWith "_WLTP" || c = "nikud_betihut" || c = "CO2_WLTP_NEDC"

/-- pd.to_numeric(errors=coerce) on one cell of a domain numeric column:
integers pass through, integer-literal strings parse, everything else
(missing sentinels, non-numeric strings) becomes NaN. -/
def toNumericCoerce : PyVal → PyVal
  | .vInt n => .vInt n
  | .vStr s =>
      match parsePyInt s with
      | some n => .vInt n
      | none => .vNaN
  | _ => .vNaN

/-- All keys occurring in a list of records, first occurrence first;
this is the column order pd.DataFrame gives a list of dicts. -/
def recordKeys (recs : List Rec) : List String :=
  recs.foldl (fun acc r => r.foldl (fun a p => if a.contains p.1 then a else a ++ [p.1]) acc) []

/-- A column selects, for each record, the value at the key, filling
NaN where the key is absent, as pd.DataFrame does. -/
def columnOf (recs : List Rec) (c : String) : List PyVal :=
  recs.map (fun r => ((r.find? (fun p => p.1 = c)).map Prod.snd).getD .vNaN)

/-- pandas dtype inference at frame construction: in a column whose
values are purely numeric apart from missing entries, Python None is
coerced to NaN (the column becomes float64); columns holding a string
stay object and keep None as is. -/
def normalizeColumn (vs : List PyVal) : List PyVal :=
  if vs.any PyVal.isStr then vs
  else if vs.any (fun v => match v with | .vInt _ => true | _ => false) then
    vs.map (fun v => if v = .vNone then .vNaN else v)
  else vs

/-- pd.DataFrame(all_records) (src/etl.py line 82): columns are the
union of record keys in first-appearance order; missing keys fill NaN. -/
def mkDataFrame (recs : List Rec) : DFrame :=
  ⟨(recordKeys recs).map (fun c => (c, normalizeColumn (columnOf recs c)))⟩

/-- Outcome of one page request, after the retry adapter: a 200
response with well-formed body, a non-200 status returned without an
exception, or an exception (retries exhausted, or a 200 body that does
not parse into result.records). -/
inductive PageResp where
  | ok (records : List Rec)
  | badStatus (code : Nat)
  | raised
  deriving DecidableEq, Repr

/-- The remote API as the extractor sees it: the probe (limit=1 request
read for result.total) either yields the declared total or raises, and
each page request at a given offset yields a PageResp. -/
structure Api where
  probe : Option Nat
  page : Nat → PageResp

/-- Python range(0, stop, step) for step > 0: the multiples of step
below stop, in increasing order. -/
def pythonRange (stop step : Nat) : List Nat :=
  (List.range ((stop + step - 1) / step)).map (fun k => k * step)

/-- What one run of extractor produced: the offsets actually requested
in the page loop (in request order), and the collected records, none
when the run raised and returned None. -/
structure ExtractResult where
  requests : List Nat
  recs : Option (List Rec)
  deriving DecidableEq, Repr

/-- The page loop of extractor (src/etl.py lines 72-81): pages are
fetched at each offset in turn; a 200 response appends its records; a
non-200 response breaks the loop keeping what was collected; an
exception escapes to the outer handler, which discards everything. -/
def fetchPages (api : Api) : List Nat → List Rec → List Nat → ExtractResult
  | [], acc, req => ⟨req, some acc⟩
  | o :: os, acc, req =>
      match api.page o with
      | .ok rs => fetchPages api os (acc ++ rs) (req ++ [o])
      | .badStatus _ => ⟨req ++ [o], some acc⟩
      | .raised => ⟨req ++ [o], none⟩

/-- The whole of extractor (src/etl.py lines 59-87), parametric in the
page size (the source fixes limit = 10000): probe for the total, then
loop over offsets range(0, total, limit); any exception (probe or page)
reaches the outer except and the function returns None. -/
def extractorModel (api : Api) (limit : Nat) : ExtractResult :=
  match api.probe with
  | none => ⟨[], none⟩
  | some total => fetchPages api (pythonRange total limit) [] []

/-- The page size constant of src/etl.py line 60. -/
def extractorLimit : Nat := 10000

/-- The DataFrame the extractor returns: none models the Python None
returned on any exception; otherwise the frame built from the collected
records. -/
def extractorFrame (api : Api) (limit : Nat) : Option DFrame :=
  (extractorModel api limit).recs.map mkDataFrame

/-- Why a dataset is rejected by the primary-key gate. -/
inductive PkError where
  | nullId
  | dupId
  deriving DecidableEq, Repr

/-- Apply processColumn to every column of the frame, names unchanged. -/
def processAllColumns (df : DFrame) : DFrame :=
  ⟨df.cols.map (fun p => (p.1, processColumn p.2))⟩

/-- Apply the domain numeric coercion of src/etl.py lines 125-128. -/
def domainCoerce (df : DFrame) : DFrame :=
  ⟨df.cols.map (fun p =>
    if isDomainNumericCol p.1 then (p.1, p.2.map toNumericCoerce) else p)⟩

/-- The data-processing block of load (src/etl.py lines 111-128): the
per-column lower-case / sentinel-replace loop, then the _id coercion
and primary-key checks (null first, then uniqueness), then the domain
numeric coercion.  An error is the early return that rejects the
dataset. -/
def sanitizeModel (df : DFrame) : Except PkError DFrame :=
  let df1 := processAllColumns df
  match df1.col "_id" with
  | none => .ok (domainCoerce df1)
  | some vs =>
      let ids := vs.map coerceId
      if ids.any Option.isNone then .error .nullId
      else if listHasDup ids then .error .dupId
      else
        .ok (domainCoerce
          ⟨df1.cols.map (fun p =>
            if p.1 = "_id" then (p.1, ids.map (fun o => .vInt (o.getD 0))) else p)⟩)

/-- A table row: association list from column name to value, in the
column order of the loaded frame. -/
abbrev Row := List (String × PyVal)

/-- The database: association list from table name to rows.  A missing
entry is a table that does not exist. -/
abbrev DB := List (String × List Row)

/-- The rows a table holds, none when the table does not exist. -/
def dbLookup (db : DB) (t : String) : Option (List Row) :=
  (db.find? (fun p => p.1 = t)).map Prod.snd

/-- DROP TABLE IF EXISTS. -/
def dbDrop (db : DB) (t : String) : DB :=
  db.filter (fun p => p.1 ≠ t)

/-- Bind a table name to rows, dropping any previous binding. -/
def dbSet (db : DB) (t : String) (rows : List Row) : DB :=
  dbDrop db t ++ [(t, rows)]

/-- The rows of a frame, one association list per row index, columns in
frame order; this is what to_sql writes into the staging table. -/
def dfRows (df : DFrame) : List Row :=
  (List.range (((df.cols.map (fun p => p.2.length)).max?).getD 0)).map
    (fun i => df.cols.filterMap (fun p => (p.2.get? i).map (fun v => (p.1, v))))

/-- The _id cell of a row, if any. -/
def rowId (r : Row) : Option PyVal :=
  (r.find? (fun p => p.1 = "_id")).map Prod.snd

/-- One staged row arriving at the target under INSERT .. ON CONFLICT
(_id) DO UPDATE SET c = EXCLUDED.c for every non-id column: since the
staged row carries exactly the target columns, a conflicting target row
is replaced wholesale, otherwise the row is appended. -/
def upsertRow (target : List Row) (r : Row) : List Row :=
  match rowId r with
  | some idv =>
      if target.any (fun tr => rowId tr = some idv) then
        target.map (fun tr => if rowId tr = some idv then r else tr)
      else target ++ [r]
  | none => target ++ [r]

/-- The statements load executes against the database, tagged by what
they touch.  Reads (privilege probe, search_path, existence check)
never change state. -/
inductive Stmt where
  | selectPrivilege
  | showSearchPath
  | dropTarget (t : String)
  | createTarget (t : String)
  | verifyExists (t : String)
  | stageWrite (s : String)
  | upsertInto (t s : String)
  | dropStaging (s : String)
  deriving DecidableEq, Repr

/-- Whether a statement mutates database state (DDL or writing DML). -/
def stmtMutates : Stmt → Bool
  | .selectPrivilege => false
  | .showSearchPath => false
  | .verifyExists _ => false
  | _ => true

/-- Which connection a statement runs on: to_sql writes the staging
table through a fresh SQLAlchemy engine that commits on its own
(src/etl.py line 152); every other statement runs on the psycopg2
connection whose transaction load commits or rolls back. -/
inductive ConnKind where
  | txn
  | engine
  deriving DecidableEq, Repr

/-- Connection assignment for each statement. -/
def stmtConn : Stmt → ConnKind
  | .stageWrite _ => .engine
  | _ => .txn

/-- Effect of one statement on the database, given the sanitized frame
df whose rows are being loaded. -/
def applyStmt (df : DFrame) (db : DB) : Stmt → DB
  | .dropTarget t => dbDrop db t
  | .createTarget t => dbSet db t []
  | .stageWrite s => dbSet db s (dfRows df)
  | .upsertInto t s =>
      match dbLookup db t, dbLookup db s with
      | some tgt, some stg => dbSet db t (stg.foldl upsertRow tgt)
      | _, _ => db
  | .dropStaging s => dbDrop db s
  | _ => db

/-- The statement sequence load issues after sanitization succeeds
(src/etl.py lines 131-168), for target table t and staging table s. -/
def loadStmts (t s : String) : List Stmt :=
  [.showSearchPath, .dropTarget t, .createTarget t, .verifyExists t,
   .stageWrite s, .upsertInto t s, .dropStaging s]

/-- How one call to load ends. -/
inductive LoadOutcome where
  | noPrivilege
  | noData
  | pkRejected (e : PkError)
  | committed
  | raised (atStep : Nat)
  deriving DecidableEq, Repr

/-- Result of one call to load: the committed database afterwards, the
statements that were executed (in order), and the outcome. -/
structure LoadResult where
  db : DB
  trace : List Stmt
  outcome : LoadOutcome
  deriving DecidableEq, Repr

/-- Run the statement sequence with an optional injected exception:
failAt = some k raises at statement index k, so the first k statements
execute and the transaction is rolled back.  Rollback discards the
effects of statements on the transactional connection; the staging
write ran on the separate engine connection and stays committed.  With
no exception every effect applies in order and commits. -/
def runStmts (df : DFrame) (stmts : List Stmt) (failAt : Option Nat) (db : DB) :
    DB × List Stmt :=
  match failAt with
  | none => (stmts.foldl (applyStmt df) db, stmts)
  | some k =>
      let executed := stmts.take k
      (((executed.filter (fun st => stmtConn st = .engine)).foldl (applyStmt df) db),
       executed)

/-- The whole of load (src/etl.py lines 89-177) for an already fetched
frame: the privilege probe runs first; a None or empty frame skips the
load; the sanitizer (with its primary-key gate) runs next and a
rejection returns before any further statement; otherwise the DDL and
DML sequence runs, commits when no exception is injected and rolls back
otherwise.  hasPriv models the has_schema_privilege probe result and
failAt the point of a raised exception, if any. -/
def loadModel (dfOpt : Option DFrame) (t s : String) (hasPriv : Bool)
    (failAt : Option Nat) (db : DB) : LoadResult :=
  if ¬ hasPriv then ⟨db, [.selectPrivilege], .noPrivilege⟩
  else
    match dfOpt with
    | none => ⟨db, [.selectPrivilege], .noData⟩
    | some df =>
        if df.isEmpty then ⟨db, [.selectPrivilege], .noData⟩
        else
          match sanitizeModel df with
          | .error e => ⟨db, [.selectPrivilege], .pkRejected e⟩
          | .ok df1 =>
              let (db1, exec) := runStmts df1 (loadStmts t s) failAt db
              ⟨db1, .selectPrivilege :: exec,
               match failAt with
               | none => .committed
               | some k => .raised k⟩

/-- Python exceptions the models raise. -/
inductive PyExc where
  | nameError (n : String)
  | valueError (msg : String)
  | loadError
  deriving DecidableEq, Repr

/-- The names bound at module level in src/etl.py: the imported names
of lines 1-8 and the module-level definitions.  No import binds the
name os. -/
def etlModuleGlobals : List String :=
  ["psycopg2", "create_engine", "pd", "requests", "HTTPAdapter", "Retry",
   "logging", "uuid4", "base_url", "create_database", "generate_table_schema",
   "extractor", "load"]

/-- A representative slice of the Python builtin namespace, the final
scope of name resolution; the builtin namespace does not bind os (or
any other module name). -/
def pyBuiltins : List String :=
  ["str", "int", "float", "bool", "len", "range", "print", "list", "dict",
   "set", "tuple", "Exception", "ValueError", "NameError", "TypeError",
   "all", "any", "enumerate", "zip", "map", "filter", "open", "isinstance"]

/-- Name resolution inside a function body of src/etl.py with no
matching local binding: module globals, then builtins. -/
def etlScopeNames : List String := etlModuleGlobals ++ pyBuiltins

/-- The administrative SQL statements in the body of create_database
(src/etl.py lines 24-25). -/
def createDatabaseStmts : List String :=
  ["DROP DATABASE IF EXISTS mot_vehicles;", "CREATE DATABASE mot_vehicles;"]

/-- create_database (src/etl.py lines 14-33), parametric in the name
scope its body resolves against and in the environment read by
os.getenv.  Its first statement evaluates os.getenv, so when the name
os is unbound the call raises NameError before connecting and executes
no SQL; otherwise it connects in autocommit mode, executes the drop and
create statements and returns the new database name.  The result pairs
the SQL actually executed with the outcome. -/
def createDatabaseIn (names : List String) (env : String → Option String) :
    List String × Except PyExc String :=
  if names.contains "os" then
    let _ := env "DB_HOST"
    (createDatabaseStmts, .ok "mot_vehicles")
  else ([], .error (.nameError "os"))

/-- create_database as imported from src/etl.py: resolved against the
etl module scope. -/
def create_database (env : String → Option String) :
    List String × Except PyExc String :=
  createDatabaseIn etlScopeNames env

/-- The fixed catalog of src/main.py lines 25-46: (resource_id,
table_name) pairs, in order. -/
def mainCatalog : List (String × String) :=
  [("142afde2-6228-49f9-8a29-9b6c3a0cbe40", "mot_submodels"),
   ("5e87a7a1-2f6f-41c1-8aec-7216d52a6cf6", "mot_amounts"),
   ("bb2355dc-9ec7-4f06-9c3f-3344672171da", "mot_car_history_owners"),
   ("56063a99-8a3e-4ff4-912e-5966c0279bad", "mot_car_history_physical"),
   ("053cea08-09bc-40ec-8f7a-156f0677aff3", "mot_imported_private"),
   ("c967097c-3c74-4adf-a732-0fdd2fda56d9", "mot_monthly_on_road_no_degemcode"),
   ("602ac32d-19c0-4b41-88e0-e3ce8a7e80b7", "mot_monthly_on_road"),
   ("0866573c-40cd-4ca8-91d2-9dd2d7a492e5", "mot_plates_com_and_private"),
   ("053cea08-09bc-40ec-8f7a-156f0677aff3", "mot_plates_private"),
   ("39f455bf-6db0-4926-859d-017f34eacbcb", "mot_price_new"),
   ("36bf1404-0be4-49d2-82dc-2f1ead4a8b93", "mot_recall_required"),
   ("2c33523f-87aa-44ec-a736-edbb0a82975e", "mot_recalls"),
   ("83bfb278-7be1-4dab-ae2d-40125a923da1", "mot_safety_discount_ind"),
   ("cf29862d-ca25-4691-84f6-1be60dcb4a1e", "mot_public_transport"),
   ("7cb2bd95-bf2e-49b6-aea1-fcb5ff6f0473", "pollution_filter"),
   ("f6efe89a-fb3d-43a4-bb61-9bf12a9b9099", "mot_no_yearly_inspection"),
   ("6f6acd03-f351-4a8f-8ecf-df792f4f573a", "mot_inactive_no_degemcode"),
   ("851ecab1-0622-4dbe-a6c7-f950cf82abf9", "mot_taken_off_2016_today"),
   ("4e6b9724-4c1e-43f0-909a-154d4cc4e046", "mot_taken_off_2010_2016"),
   ("ec8cbc34-72e1-4b69-9c48-22821ba0bd6c", "mot_taken_off_2000_2009")]

/-- The per-entry loop of main (src/main.py lines 48-54): each catalog
entry is attempted with load inside try/except Exception, so the
recursion continues whatever the outcome of the call; the result lists
every attempt with its outcome, in catalog order. -/
def runCatalog (loadF : String × String → Except PyExc Unit) :
    List (String × String) → List ((String × String) × Except PyExc Unit)
  | [] => []
  | r :: rs => (r, loadF r) :: runCatalog loadF rs

/-- What one run of main did: the administrative SQL executed, the
catalog entries attempted (with per-entry outcomes), and how the run
ended. -/
structure MainResult where
  sql : List String
  attempts : List ((String × String) × Except PyExc Unit)
  outcome : Except PyExc Unit

/-- Truthiness of an optional environment string under Python all():
None and the empty string are falsy. -/
def envTruthy (v : Option String) : Bool :=
  match v with
  | none => false
  | some s => s ≠ ""

/-- main (src/main.py lines 8-54), parametric in the name scope of the
etl module, the process environment, and the behaviour of load per
catalog entry.  create_database is called first, outside any handler,
so its exception ends the run with no entry attempted; then the
connection parameters are checked (ValueError when one is missing);
then every catalog entry is attempted in order, each call to load
wrapped in try/except Exception. -/
def mainRun (names : List String) (env : String → Option String)
    (loadF : String × String → Except PyExc Unit) : MainResult :=
  match createDatabaseIn names env with
  | (tr, .error e) => ⟨tr, [], .error e⟩
  | (tr, .ok _) =>
      if ([env "DB_USER", env "DB_PASSWORD", env "DB_HOST", env "DB_PORT"].all
            envTruthy) then
        ⟨tr, runCatalog loadF mainCatalog, .ok ()⟩
      else ⟨tr, [], .error (.valueError "Database connection parameters incomplete.")⟩

/-- The claim property for sanitization: every position of the input
column that held a missing-value sentinel holds the canonical null in
the output column. -/
def sentinelsNulled (input output : List PyVal) : Prop :=
  ∀ i, i < input.length →
    (input.getD i PyVal.vNaN).isSentinel = true →
    output.getD i PyVal.vNaN = PyVal.vNone

/-- An API whose probe raises (network error, non-2xx, malformed body). -/
def apiProbeFail : Api := ⟨none, fun _ => PageResp.raised⟩

/-- An API whose probe succeeds with a declared total of zero records. -/
def apiZeroRows : Api := ⟨some 0, fun _ => PageResp.raised⟩

/-- An API serving one record whose key carries an upper-case letter. -/
def apiMixedCase : Api := ⟨some 1, fun _ => PageResp.ok [[("Foo", PyVal.vInt 1)]]⟩

/-- An API declaring 125 records, every page succeeding; the record at
each offset carries that offset. -/
def api125 : Api := ⟨some 125, fun o => PageResp.ok [[("n", PyVal.vInt o)]]⟩

/-- The page contents served by api125. -/
def pages125 (o : Nat) : List Rec := [[("n", PyVal.vInt o)]]

/-- An API declaring 2 records, page size 1: the first page succeeds,
the second raises (retries exhausted or malformed body). -/
def apiRaiseAt1 : Api :=
  ⟨some 2, fun o => if o = 0 then PageResp.ok [[("a", PyVal.vInt 7)]] else PageResp.raised⟩

/-- An API declaring 2 records, page size 1: the first page succeeds,
the second returns a non-success status without raising. -/
def apiBadStatusAt1 : Api :=
  ⟨some 2, fun o => if o = 0 then PageResp.ok [[("a", PyVal.vInt 7)]] else PageResp.badStatus 404⟩

/-- A one-row frame with a valid primary key, for exercising the load
protocol. -/
def df1row : DFrame := ⟨[("_id", [PyVal.vInt 1]), ("a", [PyVal.vStr "x"])]⟩

/-- The duplicate-id frame of the specification: _id values 1, 1, 2. -/
def dfDupId : DFrame :=
  ⟨[("_id", [PyVal.vInt 1, PyVal.vInt 1, PyVal.vInt 2]),
    ("a", [PyVal.vStr "x", PyVal.vStr "y", PyVal.vStr "z"])]⟩

/-- A database holding a pre-existing target table with one row. -/
def dbPrior : DB := [("tgt", [[("_id", PyVal.vInt 9), ("a", PyVal.vStr "old")]])]

/-- C2: in every environment, create_database raises NameError, because
src/etl.py references os.getenv without importing os; and since main
calls create_database before the catalog loop, every run of main ends
with that NameError having executed no SQL and attempted no dataset. -/
theorem C2_create_database_name_error (env : String → Option String)
    (loadF : String × String → Except PyExc Unit) :
    create_database env = ([], Except.error (PyExc.nameError "os")) ∧
    (mainRun etlScopeNames env loadF).sql = [] ∧
    (mainRun etlScopeNames env loadF).attempts = [] ∧
    (mainRun etlScopeNames env loadF).outcome = Except.error (PyExc.nameError "os") := by
  exact ⟨rfl, rfl, rfl, rfl⟩

/-- C8: the orchestration loop of main attempts every catalog entry in
order, whatever each call to load does — including raising — because
each call is wrapped in try/except that continues the loop. -/
theorem C8_every_entry_attempted (loadF : String × String → Except PyExc Unit)
    (catalog : List (String × String)) :
    (runCatalog loadF catalog).map Prod.fst = catalog := by
  induction catalog with
  | nil => rfl
  | cons r rs ih => simp [runCatalog, ih]

/-- C9 counterexample: a run of main with a fully populated environment
executes no SQL at all and ends with NameError, so no run begins by
executing DROP DATABASE IF EXISTS mot_vehicles. -/
theorem C9_counterexample :
    (mainRun etlScopeNames (fun _ => some "x") (fun _ => Except.ok ())).sql = [] ∧
    (mainRun etlScopeNames (fun _ => some "x") (fun _ => Except.ok ())).sql.head? ≠
      some "DROP DATABASE IF EXISTS mot_vehicles;" ∧
    (mainRun etlScopeNames (fun _ => some "x") (fun _ => Except.ok ())).outcome =
      Except.error (PyExc.nameError "os") := by
  refine ⟨rfl, ?_, rfl⟩
  rw [show (mainRun etlScopeNames (fun _ => some "x") (fun _ => Except.ok ())).sql = []
        from rfl]
  intro h
  exact Option.noConfusion h

/-- C9 amended: main calls create_database before any per-dataset
processing, but the call raises NameError before executing any SQL, so
no run reaches the DROP DATABASE / CREATE DATABASE statements; had the
name os been bound in the module scope, create_database would have
executed exactly DROP DATABASE IF EXISTS mot_vehicles followed by
CREATE DATABASE mot_vehicles before the catalog loop. -/
theorem C9_amended_admin_sql (env : String → Option String)
    (loadF : String × String → Except PyExc Unit) :
    (mainRun etlScopeNames env loadF).sql = [] ∧
    (mainRun etlScopeNames env loadF).attempts = [] ∧
    (mainRun ("os" :: etlScopeNames) env loadF).sql = createDatabaseStmts := by
  refine ⟨rfl, rfl, ?_⟩
  unfold mainRun
  rw [show createDatabaseIn ("os" :: etlScopeNames) env =
        (createDatabaseStmts, Except.ok "mot_vehicles") from rfl]
  by_cases h : ([env "DB_USER", env "DB_PASSWORD", env "DB_HOST", env "DB_PORT"].all
      envTruthy) = true
  · simp [h]
  · simp [h]

/-- C5 counterexample: when the probe fails the extractor returns None
(modelled as none), not an empty dataset, while a legitimately zero-row
resource yields an empty DataFrame; the two return values are
distinguishable. -/
theorem C5_counterexample :
    extractorFrame apiProbeFail extractorLimit = none ∧
    extractorFrame apiZeroRows extractorLimit = some (mkDataFrame []) ∧
    extractorFrame apiProbeFail extractorLimit ≠
      extractorFrame apiZeroRows extractorLimit := by
  refine ⟨rfl, rfl, ?_⟩
  rw [show extractorFrame apiProbeFail extractorLimit = none from rfl,
      show extractorFrame apiZeroRows extractorLimit = some (mkDataFrame []) from rfl]
  intro h
  exact Option.noConfusion h

/-- C5 amended: on probe failure the extractor returns None, a value
distinguishable from the empty DataFrame of a zero-row resource; the
Loader nevertheless treats both identically, skipping the load and
leaving the database untouched, so the distinction is visible only in
the returned value and the logs, not in load behaviour. -/
theorem C5_amended (api : Api) (limit : Nat) (h : api.probe = none)
    (t s : String) (priv : Bool) (failAt : Option Nat) (db : DB) :
    extractorFrame api limit = none ∧
    extractorFrame api limit ≠ some (mkDataFrame []) ∧
    loadModel (extractorFrame api limit) t s priv failAt db =
      loadModel (some (mkDataFrame [])) t s priv failAt db := by
  have he : extractorFrame api limit = none := by
    simp [extractorFrame, extractorModel, h]
  refine ⟨he, by rw [he]; intro hc; exact Option.noConfusion hc, ?_⟩
  rw [he]
  by_cases hp : priv
  · simp [loadModel, hp, DFrame.isEmpty, mkDataFrame, recordKeys]
  · simp [loadModel, hp]

/-- C5 witness: the amended statement instantiated at the failing-probe
API, the standard page size, a concrete target and a concrete database. -/
theorem C5_amended_witness :
    apiProbeFail.probe = none ∧
    (extractorFrame apiProbeFail extractorLimit = none ∧
     extractorFrame apiProbeFail extractorLimit ≠ some (mkDataFrame []) ∧
     loadModel (extractorFrame apiProbeFail extractorLimit) "tgt" "stg" true none dbPrior =
       loadModel (some (mkDataFrame [])) "tgt" "stg" true none dbPrior) :=
  ⟨rfl, C5_amended apiProbeFail extractorLimit rfl "tgt" "stg" true none dbPrior⟩

/-- Membership in the inner key-collecting fold: a key is collected
from one record exactly when it was already present or occurs in the
record. -/
theorem mem_keyFold (r : Rec) :
    ∀ (a : List String) (c : String),
      (c ∈ r.foldl (fun a p => if a.contains p.1 then a else a ++ [p.1]) a) ↔
        (c ∈ a ∨ c ∈ r.map Prod.fst) := by
  induction r with
  | nil => intro a c; simp
  | cons p ps ih =>
      intro a c
      rw [List.foldl_cons, ih]
      by_cases hc : a.contains p.1
      · simp only [hc, if_pos]
        have hp : p.1 ∈ a := by simpa using hc
        constructor
        · rintro (h | h)
          · exact Or.inl h
          · exact Or.inr (by simp [h])
        · rintro (h | h)
          · exact Or.inl h
          · simp only [List.map_cons, List.mem_cons] at h
            rcases h with h | h
            · exact Or.inl (h ▸ hp)
            · exact Or.inr h
      · simp only [hc, if_neg, Bool.false_eq_true, not_false_iff]
        simp [List.mem_append, or_assoc, or_comm, or_left_comm]
  
/-- Membership in recordKeys: a column name is produced exactly when it
is a key of some record. -/
theorem mem_recordKeys (recs : List Rec) (c : String) :
    c ∈ recordKeys recs ↔ ∃ r ∈ recs, c ∈ r.map Prod.fst := by
  have main : ∀ (rs : List Rec) (a : List String),
      (c ∈ rs.foldl (fun acc r =>
        r.foldl (fun a p => if a.contains p.1 then a else a ++ [p.1]) acc) a) ↔
      (c ∈ a ∨ ∃ r ∈ rs, c ∈ r.map Prod.fst) := by
    intro rs
    induction rs with
    | nil => intro a; simp
    | cons r rs ih =>
        intro a
        rw [List.foldl_cons, ih, mem_keyFold]
        simp [or_assoc]
  rw [recordKeys, main]
  simp

/-- C4 counterexample: the extractor performs no case normalization of
column names: a record with key Foo yields a dataset whose column is
named Foo, not foo. -/
theorem C4_counterexample :
    extractorFrame apiMixedCase extractorLimit =
      some ⟨[("Foo", [PyVal.vInt 1])]⟩ ∧
    ¬ (∀ c ∈ (DFrame.colNames ⟨[("Foo", [PyVal.vInt 1])]⟩), lowerStr c = c) := by
  refine ⟨rfl, ?_⟩
  intro h
  have hf := h "Foo" (by simp [DFrame.colNames])
  revert hf
  decide

/-- C4 amended: the dataset returned on a successful extraction has as
column names exactly the keys of the parsed records, verbatim, the
union taken across all parsed batches in first-appearance order; no
lower-casing is applied. -/
theorem C4_amended (api : Api) (limit : Nat) (recs : List Rec)
    (h : (extractorModel api limit).recs = some recs) :
    extractorFrame api limit = some (mkDataFrame recs) ∧
    (mkDataFrame recs).colNames = recordKeys recs ∧
    (∀ c, c ∈ (mkDataFrame recs).colNames ↔ ∃ r ∈ recs, c ∈ r.map Prod.fst) := by
  have hnames : (mkDataFrame recs).colNames = recordKeys recs := by
    simp only [mkDataFrame, DFrame.colNames, List.map_map]
    rw [show (Prod.fst ∘ fun c => (c, normalizeColumn (columnOf recs c))) =
          fun c : String => c from rfl]
    exact List.map_id' (recordKeys recs)
  refine ⟨by simp [extractorFrame, h], hnames, ?_⟩
  intro c
  rw [hnames]
  exact mem_recordKeys recs c

/-- C4 witness: the amended statement instantiated at the mixed-case
API, whose single record has the key Foo. -/
theorem C4_amended_witness :
    (extractorModel apiMixedCase extractorLimit).recs = some [[("Foo", PyVal.vInt 1)]] ∧
    (extractorFrame apiMixedCase extractorLimit =
        some (mkDataFrame [[("Foo", PyVal.vInt 1)]]) ∧
     (mkDataFrame [[("Foo", PyVal.vInt 1)]]).colNames =
        recordKeys [[("Foo", PyVal.vInt 1)]] ∧
     (∀ c, c ∈ (mkDataFrame [[("Foo", PyVal.vInt 1)]]).colNames ↔
        ∃ r ∈ [[("Foo", PyVal.vInt 1)]], c ∈ r.map Prod.fst)) :=
  ⟨rfl, C4_amended apiMixedCase extractorLimit [[("Foo", PyVal.vInt 1)]] rfl⟩

/-- Counting pages: k is below the ceiling division exactly when the
offset k * s is below the total n. -/
theorem lt_ceilDiv_iff {n s k : Nat} (hs : 0 < s) :
    k < (n + s - 1) / s ↔ k * s < n := by
  rw [Nat.lt_iff_add_one_le, Nat.le_div_iff_mul_le hs, Nat.add_mul, Nat.one_mul]
  have h : k * s + s ≤ n + s - 1 ↔ k * s < n := by omega
  exact h

/-- Membership in pythonRange: exactly the multiples of the step below
the stop. -/
theorem mem_pythonRange {stop step o : Nat} (hs : 0 < step) :
    o ∈ pythonRange stop step ↔ o % step = 0 ∧ o < stop := by
  unfold pythonRange
  constructor
  · intro h
    rcases List.mem_map.mp h with ⟨k, hk, rfl⟩
    have hk2 := (lt_ceilDiv_iff hs).mp (List.mem_range.mp hk)
    exact ⟨Nat.mul_mod_left k step, hk2⟩
  · rintro ⟨hm, ho⟩
    refine List.mem_map.mpr ⟨o / step, ?_, ?_⟩
    · refine List.mem_range.mpr ((lt_ceilDiv_iff hs).mpr ?_)
      rw [Nat.div_mul_cancel (Nat.dvd_of_mod_eq_zero hm)]
      exact ho
    · exact Nat.div_mul_cancel (Nat.dvd_of_mod_eq_zero hm)

/-- The k-th element of pythonRange is k times the step. -/
theorem pythonRange_get? (stop step k : Nat) :
    (pythonRange stop step).get? k =
      if k < (stop + step - 1) / step then some (k * step) else none := by
  unfold pythonRange
  by_cases hk : k < (stop + step - 1) / step
  · rw [if_pos hk, List.get?_map, List.get?_range hk]
    rfl
  · rw [if_neg hk, List.get?_eq_none.mpr]
    simp only [List.length_map, List.length_range]
    omega

/-- The page loop when every page request succeeds: every offset is
requested, in order, and the fetched records are concatenated in
request order. -/
theorem fetchPages_all_ok (api : Api) (pages : Nat → List Rec)
    (hpages : ∀ o, api.page o = PageResp.ok (pages o)) :
    ∀ (os : List Nat) (acc : List Rec) (req : List Nat),
      fetchPages api os acc req = ⟨req ++ os, some (acc ++ (os.map pages).join)⟩ := by
  intro os
  induction os with
  | nil => intro acc req; simp [fetchPages]
  | cons o os ih =>
      intro acc req
      simp only [fetchPages, hpages o]
      rw [ih]
      simp

/-- C6: for a declared total and a positive page size, the extractor
issues page requests at exactly the offsets 0, P, 2P, ... below the
total (the k-th request at offset k * P), and when every page succeeds
the collected records are the concatenation of the pages in request
order.  src/etl.py fixes the page size at extractorLimit = 10000; the
statement holds for any positive page size, in particular total 125
and page size 50 give requests at 0, 50, 100. -/
theorem C6_pagination (api : Api) (limit total : Nat) (pages : Nat → List Rec)
    (hpos : 0 < limit) (hprobe : api.probe = some total)
    (hpages : ∀ o, api.page o = PageResp.ok (pages o)) :
    (extractorModel api limit).requests = pythonRange total limit ∧
    (∀ o, o ∈ (extractorModel api limit).requests ↔ o % limit = 0 ∧ o < total) ∧
    (∀ k, ((extractorModel api limit).requests.get? k).all (fun o => o = k * limit)) ∧
    (extractorModel api limit).recs =
      some ((pythonRange total limit).map pages).join := by
  have hstep : extractorModel api limit = fetchPages api (pythonRange total limit) [] [] := by
    unfold extractorModel
    rw [hprobe]
  have hrun : extractorModel api limit =
      ⟨pythonRange total limit, some ((pythonRange total limit).map pages).join⟩ := by
    rw [hstep, fetchPages_all_ok api pages hpages]
    simp
  refine ⟨by rw [hrun], ?_, ?_, by rw [hrun]⟩
  · intro o
    rw [hrun]
    exact mem_pythonRange hpos
  · intro k
    rw [hrun]
    simp only
    rw [pythonRange_get? total limit k]
    by_cases hk : k < (total + limit - 1) / limit
    · rw [if_pos hk]; simp
    · rw [if_neg hk]; simp

/-- C6 witness: a declared total of 125 with page size 50 issues
exactly the three page requests 0, 50, 100 and concatenates the three
pages in request order. -/
theorem C6_pagination_witness :
    (extractorModel api125 50).requests = [0, 50, 100] ∧
    (extractorModel api125 50).recs =
      some [[("n", PyVal.vInt 0)], [("n", PyVal.vInt 50)], [("n", PyVal.vInt 100)]] := by
  have h := C6_pagination api125 50 125 pages125 (by decide) rfl (fun o => rfl)
  constructor
  · rw [h.1]; rfl
  · rw [h.2.2.2]; rfl

/-- The page loop over a run of succeeding offsets followed by the rest:
the succeeding offsets contribute their records and requests, then the
loop continues. -/
theorem fetchPages_ok_run (api : Api) (pages : Nat → List Rec) :
    ∀ (os1 os2 : List Nat) (acc : List Rec) (req : List Nat),
      (∀ x ∈ os1, api.page x = PageResp.ok (pages x)) →
      fetchPages api (os1 ++ os2) acc req =
        fetchPages api os2 (acc ++ (os1.map pages).join) (req ++ os1) := by
  intro os1
  induction os1 with
  | nil => intro os2 acc req h; simp
  | cons x xs ih =>
      intro os2 acc req h
      rw [List.cons_append]
      simp only [fetchPages, h x (by simp)]
      rw [ih os2 (acc ++ pages x) (req ++ [x]) (fun y hy => h y (by simp [hy]))]
      simp

/-- C10: with the probe succeeding, split the offset list at the first
non-ok page.  If that page raises (retries-exhausted network error, or
a 200 body of the wrong shape), the extractor discards every record
already collected and returns the same failure value as a probe
failure, None.  If instead that page returns a non-success status
without raising, the records collected so far are preserved and
returned. -/
theorem C10_raise_discards (api : Api) (limit total : Nat)
    (pages : Nat → List Rec) (os1 os2 : List Nat) (o : Nat)
    (hprobe : api.probe = some total)
    (hsplit : pythonRange total limit = os1 ++ o :: os2)
    (hpre : ∀ x ∈ os1, api.page x = PageResp.ok (pages x)) :
    (api.page o = PageResp.raised →
      extractorFrame api limit = none ∧
      (∀ api2 : Api, api2.probe = none → extractorFrame api2 limit = none) ∧
      extractorFrame api limit =
        extractorFrame ⟨none, api.page⟩ limit) ∧
    (∀ code, api.page o = PageResp.badStatus code →
      (extractorModel api limit).recs = some (os1.map pages).join) := by
  have hstep : extractorModel api limit =
      fetchPages api (os1 ++ o :: os2) [] [] := by
    have h0 : extractorModel api limit =
        fetchPages api (pythonRange total limit) [] [] := by
      unfold extractorModel
      rw [hprobe]
    rw [h0, hsplit]
  have hrun : extractorModel api limit =
      fetchPages api (o :: os2) ((os1.map pages).join) os1 := by
    rw [hstep, fetchPages_ok_run api pages os1 (o :: os2) [] [] hpre]
    simp
  constructor
  · intro hraise
    have hnone : extractorFrame api limit = none := by
      rw [extractorFrame, hrun]
      simp only [fetchPages, hraise]
      rfl
    refine ⟨hnone, ?_, ?_⟩
    · intro api2 h2
      rw [extractorFrame]
      unfold extractorModel
      rw [h2]
      rfl
    · rw [hnone]
      rfl
  · intro code hbad
    rw [hrun]
    simp only [fetchPages, hbad]

/-- C10 witness: with two pages of size one, a raise at the second page
discards the record already fetched and returns None, while a non-200
status at the second page preserves the first page of records. -/
theorem C10_raise_discards_witness :
    extractorFrame apiRaiseAt1 1 = none ∧
    (extractorModel apiBadStatusAt1 1).recs = some [[("a", PyVal.vInt 7)]] := by
  have h1 := C10_raise_discards apiRaiseAt1 1 2 (fun _ => [[("a", PyVal.vInt 7)]])
      [0] [] 1 rfl rfl (by intro x hx; simp at hx; subst hx; rfl)
  have h2 := C10_raise_discards apiBadStatusAt1 1 2 (fun _ => [[("a", PyVal.vInt 7)]])
      [0] [] 1 rfl rfl (by intro x hx; simp at hx; subst hx; rfl)
  refine ⟨(h1.1 rfl).1, ?_⟩
  have hb := h2.2 404 rfl
  rw [hb]
  rfl

/-- C7 counterexample: in a text-typed (object-dtype) column holding
the values "AbC" and NaN, sanitization turns the NaN into the literal
string "nan" (astype(str) runs before the sentinel replace), so the
sentinel is not replaced by the canonical null. -/
theorem C7_counterexample :
    processColumn [PyVal.vStr "AbC", PyVal.vNaN] =
      [PyVal.vStr "abc", PyVal.vStr "nan"] ∧
    ¬ sentinelsNulled [PyVal.vStr "AbC", PyVal.vNaN]
        (processColumn [PyVal.vStr "AbC", PyVal.vNaN]) := by
  constructor
  · rfl
  · intro h
    have h1 := h 1 (by decide) (by decide)
    revert h1
    decide

/-- C7 amended: sentinel replacement is not uniform across column
types.  In a non-object column every missing-value sentinel becomes
the canonical null; in an object-dtype (text-typed) column every value
is first stringified and lower-cased, so each sentinel becomes the
string "nan", "none" or "<na>" and the subsequent replace leaves the
column all-strings with no null at any position. -/
theorem C7_amended (vs : List PyVal) :
    (isObjectDtype vs = false → sentinelsNulled vs (processColumn vs)) ∧
    (isObjectDtype vs = true →
      processColumn vs = vs.map (fun v => PyVal.vStr (lowerStr v.pyStr)) ∧
      ∀ w ∈ processColumn vs, ∃ s, w = PyVal.vStr s) := by
  constructor
  · intro hobj
    intro i hi hsent
    have hpc : processColumn vs = vs.map replaceSentinel := by
      rw [processColumn]
      simp only [hobj]
      rfl
    rw [hpc]
    rw [List.getD_eq_getElem?_getD, List.getElem?_map]
    rw [List.getD_eq_getElem?_getD] at hsent
    rcases hv : vs[i]? with _ | v
    · exact absurd hv (by simp [List.getElem?_eq_getElem hi])
    · rw [hv] at hsent
      simp only [Option.getD_some] at hsent
      cases v <;> simp_all [PyVal.isSentinel, replaceSentinel]
  · intro hobj
    have hpc : processColumn vs =
        vs.map (fun v => PyVal.vStr (lowerStr v.pyStr)) := by
      rw [processColumn]
      simp only [hobj, if_pos]
      rw [List.map_map]
      rfl
    refine ⟨hpc, ?_⟩
    intro w hw
    rw [hpc] at hw
    rcases List.mem_map.mp hw with ⟨v, _, rfl⟩
    exact ⟨lowerStr v.pyStr, rfl⟩

/-- C7 witness: a numeric column with a NaN gets the null replacement;
the text column of the counterexample becomes all strings. -/
theorem C7_amended_witness :
    sentinelsNulled [PyVal.vInt 1, PyVal.vNaN]
      (processColumn [PyVal.vInt 1, PyVal.vNaN]) ∧
    processColumn [PyVal.vStr "AbC", PyVal.vNaN] =
      [PyVal.vStr "AbC", PyVal.vNaN].map (fun v => PyVal.vStr (lowerStr v.pyStr)) := by
  constructor
  · exact (C7_amended [PyVal.vInt 1, PyVal.vNaN]).1 (by decide)
  · exact ((C7_amended [PyVal.vStr "AbC", PyVal.vNaN]).2 (by decide)).1

/-- find? over a value-wise map of columns: the first column with the
given name is found unchanged, its values transformed. -/
theorem find?_map_fst (g : List PyVal → List PyVal) (c : String) :
    ∀ cols : List (String × List PyVal),
      (cols.map (fun p => (p.1, g p.2))).find? (fun p => p.1 = c) =
        (cols.find? (fun p => p.1 = c)).map (fun p => (p.1, g p.2)) := by
  intro cols
  induction cols with
  | nil => rfl
  | cons p ps ih =>
      by_cases hp : p.1 = c
      · simp [List.find?_cons_of_pos, hp]
      · simp [List.find?_cons_of_neg, hp, ih]

/-- The per-column processing loop commutes with column selection. -/
theorem col_processAllColumns (df : DFrame) (c : String) :
    (processAllColumns df).col c = (df.col c).map processColumn := by
  unfold processAllColumns DFrame.col
  simp only
  rw [find?_map_fst processColumn c df.cols]
  cases hf : df.cols.find? (fun p => p.1 = c) with
  | none => rfl
  | some p => rfl

/-- A frame with a nonempty named column is not empty in the pandas
sense. -/
theorem not_isEmpty_of_col (df : DFrame) (c : String) (vs : List PyVal)
    (hcol : df.col c = some vs) (hne : vs ≠ []) : df.isEmpty = false := by
  unfold DFrame.col at hcol
  rcases hfind : df.cols.find? (fun p => p.1 = c) with _ | p
  · rw [hfind] at hcol
    cases hcol
  · rw [hfind] at hcol
    have hp2 : p.2 = vs := by
      simpa using hcol
    have hmem := List.mem_of_find?_eq_some hfind
    unfold DFrame.isEmpty
    rw [Bool.or_eq_false_iff]
    constructor
    · rcases hcols : df.cols with _ | ⟨q, qs⟩
      · rw [hcols] at hmem
        cases hmem
      · rfl
    · apply List.all_eq_false.mpr
      refine ⟨p, hmem, ?_⟩
      simp only [hp2]
      simp [hne]

/-- C3: a dataset with an _id column in which, after integer coercion,
some value is null or the values are not pairwise unique, is rejected
by load before any DDL or DML statement executes: the statement trace
holds only the read-only privilege probe and the database is returned
exactly as it was. -/
theorem C3_pk_gate (df : DFrame) (vs : List PyVal) (t s : String)
    (failAt : Option Nat) (db : DB)
    (hcol : df.col "_id" = some vs)
    (hbad : (((processColumn vs).map coerceId).any Option.isNone = true) ∨
            (listHasDup ((processColumn vs).map coerceId) = true)) :
    ∃ e, loadModel (some df) t s true failAt db =
        ⟨db, [Stmt.selectPrivilege], LoadOutcome.pkRejected e⟩ ∧
      (loadModel (some df) t s true failAt db).trace.filter stmtMutates = [] := by
  have hvs : vs ≠ [] := by
    intro hnil
    subst hnil
    rcases hbad with h | h <;> simp [processColumn, isObjectDtype, listHasDup] at h
  have hcol1 : (processAllColumns df).col "_id" = some (processColumn vs) := by
    rw [col_processAllColumns, hcol]
    rfl
  have hsan : ∃ e, sanitizeModel df = Except.error e := by
    cases hb : ((processColumn vs).map coerceId).any Option.isNone with
    | false =>
        have hd : listHasDup ((processColumn vs).map coerceId) = true := by
          rcases hbad with h | h
          · rw [h] at hb
            cases hb
          · exact h
        exact ⟨PkError.dupId, by simp [sanitizeModel, hcol1, hb, hd]⟩
    | true =>
        exact ⟨PkError.nullId, by simp [sanitizeModel, hcol1, hb]⟩
  rcases hsan with ⟨e, hsan⟩
  have hne : df.isEmpty = false := not_isEmpty_of_col df "_id" vs hcol hvs
  have hmain : loadModel (some df) t s true failAt db =
      ⟨db, [Stmt.selectPrivilege], LoadOutcome.pkRejected e⟩ := by
    simp [loadModel, hne, hsan]
  refine ⟨e, hmain, ?_⟩
  rw [hmain]
  rfl

/-- C3 witness: the duplicate-id frame of the specification, _id values
1, 1, 2, against a database holding a prior target table: the load is
rejected with only the privilege probe executed and the database
unchanged. -/
theorem C3_pk_gate_witness :
    dfDupId.col "_id" = some [PyVal.vInt 1, PyVal.vInt 1, PyVal.vInt 2] ∧
    ∃ e, loadModel (some dfDupId) "tgt" "stg" true none dbPrior =
        ⟨dbPrior, [Stmt.selectPrivilege], LoadOutcome.pkRejected e⟩ ∧
      (loadModel (some dfDupId) "tgt" "stg" true none dbPrior).trace.filter stmtMutates
        = [] := by
  refine ⟨rfl, ?_⟩
  exact C3_pk_gate dfDupId [PyVal.vInt 1, PyVal.vInt 1, PyVal.vInt 2] "tgt" "stg"
    none dbPrior rfl (Or.inr (by decide))

/-- C1 counterexample: a valid one-row load that raises at the upsert
statement (index 5) leaves the staging table committed and visible,
because the staging write ran on the separate engine connection that
commits independently of the rolled-back transaction. -/
theorem C1_counterexample :
    (loadModel (some df1row) "tgt" "tgt_staging_ab12cd34" true (some 5) []).outcome =
      LoadOutcome.raised 5 ∧
    dbLookup (loadModel (some df1row) "tgt" "tgt_staging_ab12cd34" true (some 5) []).db
        "tgt_staging_ab12cd34" =
      some [[("_id", PyVal.vInt 1), ("a", PyVal.vStr "x")]] ∧
    (some [[("_id", PyVal.vInt 1), ("a", PyVal.vStr "x")]] : Option (List Row)) ≠
      none := by
  refine ⟨rfl, rfl, ?_⟩
  intro h
  exact Option.noConfusion h

/-- Looking a name up after filtering out a different name is the same
as looking it up directly. -/
theorem find?_filter_ne (s t : String) (h : t ≠ s) :
    ∀ db : DB, (db.filter (fun p => p.1 ≠ s)).find? (fun p => p.1 = t) =
      db.find? (fun p => p.1 = t) := by
  intro db
  induction db with
  | nil => rfl
  | cons a db ih =>
      simp only [decide_not] at ih
      by_cases ha : a.1 = s
      · have hat : ¬ (a.1 = t) := by
          rw [ha]
          exact fun hh => h hh.symm
        rw [List.filter_cons]
        simp only [ha, decide_not, decide_True, Bool.not_true, Bool.false_eq_true,
          if_false]
        rw [List.find?_cons_of_neg _ (by simpa using hat)]
        exact ih
      · rw [List.filter_cons]
        simp only [decide_not]
        rw [if_pos (by simpa using ha)]
        by_cases hat : a.1 = t
        · rw [List.find?_cons_of_pos _ (by simpa using hat),
              List.find?_cons_of_pos _ (by simpa using hat)]
        · rw [List.find?_cons_of_neg _ (by simpa using hat),
              List.find?_cons_of_neg _ (by simpa using hat)]
          exact ih

/-- Writing one table leaves the lookup of a different table unchanged. -/
theorem dbLookup_dbSet_ne (db : DB) (s t : String) (rows : List Row) (h : t ≠ s) :
    dbLookup (dbSet db s rows) t = dbLookup db t := by
  unfold dbSet dbDrop dbLookup
  rw [List.find?_append, find?_filter_ne s t h db]
  cases hf : db.find? (fun p => p.1 = t) with
  | some p => rfl
  | none =>
      rw [List.find?_cons_of_neg _ (by simpa using fun hh => h hh.symm)]
      rfl

/-- A fold of staging writes into a different table never changes the
target lookup. -/
theorem dbLookup_foldl_stage (df : DFrame) (t s : String) (h : t ≠ s) :
    ∀ l : List Stmt, (∀ st ∈ l, st = Stmt.stageWrite s) →
      ∀ db : DB, dbLookup (l.foldl (applyStmt df) db) t = dbLookup db t := by
  intro l
  induction l with
  | nil => intro _ db; rfl
  | cons st l ih =>
      intro hl db
      have hst : st = Stmt.stageWrite s := hl st (by simp)
      subst hst
      rw [List.foldl_cons]
      rw [ih (fun x hx => hl x (by simp [hx])) _]
      exact dbLookup_dbSet_ne db s t (dfRows df) h

/-- Among the statements load issues, the only one on the engine
connection is the staging write. -/
theorem engine_stmts_stageWrite (t s : String) :
    ∀ st ∈ loadStmts t s, stmtConn st = ConnKind.engine → st = Stmt.stageWrite s := by
  intro st hst
  simp only [loadStmts, List.mem_cons, List.mem_singleton] at hst
  rcases hst with rfl | rfl | rfl | rfl | rfl | rfl | rfl | h
  · intro h; cases h
  · intro h; cases h
  · intro h; cases h
  · intro h; cases h
  · intro _; rfl
  · intro h; cases h
  · intro h; cases h
  · cases h

/-- C1 amended: the statements on the transactional connection do roll
back together, so on an exception at any point the target table is left
exactly in its prior state; but the staging write runs on a separate
auto-committing engine connection, so it survives the rollback and
residual staging state can remain visible after a failed load. -/
theorem C1_amended (dfOpt : Option DFrame) (t s : String) (priv : Bool)
    (k : Nat) (db : DB) (hts : t ≠ s) :
    dbLookup (loadModel dfOpt t s priv (some k) db).db t = dbLookup db t := by
  by_cases hp : priv = true
  · cases dfOpt with
    | none => simp [loadModel, hp]
    | some df =>
        by_cases he : df.isEmpty = true
        · simp [loadModel, hp, he]
        · cases hs : sanitizeModel df with
          | error e => simp [loadModel, hp, he, hs]
          | ok df1 =>
              have hred : (loadModel (some df) t s priv (some k) db).db =
                  (((loadStmts t s).take k).filter
                    (fun st => stmtConn st = ConnKind.engine)).foldl
                      (applyStmt df1) db := by
                simp [loadModel, hp, he, hs, runStmts]
              rw [hred]
              apply dbLookup_foldl_stage df1 t s hts
              intro st hst
              have h1 : st ∈ (loadStmts t s).take k := (List.mem_filter.mp hst).1
              have h2 : stmtConn st = ConnKind.engine := by
                have := (List.mem_filter.mp hst).2
                simpa using this
              exact engine_stmts_stageWrite t s st (List.take_subset _ _ h1) h2
  · simp [loadModel, hp]

/-- C1 witness: the amended statement instantiated at the one-row
frame, distinct target and staging names, an exception injected at the
staging-drop step, and a database holding a prior target table. -/
theorem C1_amended_witness :
    ("tgt" : String) ≠ "stg" ∧
    dbLookup (loadModel (some df1row) "tgt" "stg" true (some 6) dbPrior).db "tgt" =
      dbLookup dbPrior "tgt" :=
  ⟨by decide, C1_amended (some df1row) "tgt" "stg" true 6 dbPrior (by decide)⟩
